import Mathlib

/-!
Verification development for the `bk_integration` settings form controller.

The repository holds a single client-side form controller
(`bk_integration_settings.js`) plus a stripped-down near-duplicate variant
(an unnamed second file). The controller derives five callback URLs from a
base-URL field and renders the result of a connection test as an alert and a
colored banner. This file gives a shallow embedding of the record the
controller mutates, the `generate_urls` handler of both variants, and the
`render_test_status` handler, and proves the documented properties about
them.
-/

/-- A JavaScript value stored in the `enable_integration` check field.
In the host framework the field may hold a boolean or a number, so the
embedding keeps both shapes. -/
inductive JsFlag where
  | jbool (b : Bool)
  | jint (n : Int)
deriving DecidableEq, Repr

/-- JavaScript truthiness for a `JsFlag`: `false` and `0` are falsy,
everything else is truthy.  The main controller guards with
`if (!frm.doc.enable_integration) return;`, which is exactly a test of
this predicate. -/
def truthy : JsFlag → Bool
  | .jbool b => b
  | .jint n => n != 0

/-- The host framework's `cint` coercion, restricted to the boolean and
integer values a check field can hold: `true ↦ 1`, `false ↦ 0`, an integer
maps to itself. -/
def cint : JsFlag → Int
  | .jbool b => if b then 1 else 0
  | .jint n => n

/-- JavaScript `a || b` on flag values: the left operand if truthy,
otherwise the right. -/
def jsOrFlag (a b : JsFlag) : JsFlag :=
  if truthy a then a else b

/-- JavaScript `a || b` on strings: the empty string is the only falsy
string, so the result is `a` unless `a` is empty. -/
def jsOrStr (a b : String) : String :=
  if a = "" then b else a

/-- The settings record (`BK Integration Settings` doctype) as the
controller sees it: the gate flag, the base URL, the five derived URL
fields, and the three test-status fields.  Unset string fields are
modelled as the empty string, which JavaScript's `||` defaulting treats
the same way. -/
structure Doc where
  enable_integration : JsFlag
  erp_base_url : String
  auth_url : String
  validation_url : String
  payment_notification_url : String
  payment_callback_url : String
  payment_reversal_url : String
  last_test_status : String
  last_test_message : String
  last_test_on : String
deriving DecidableEq, Repr

/-- `.replace(/\/+$/, "")`: strip every trailing `/` character (the regex
removes the maximal run of slashes anchored at the end). -/
def stripTrailingSlashes (s : String) : String :=
  String.mk ((s.data.reverse.dropWhile (fun c => c == '/')).reverse)

/-- A string of `k` slashes, used to state the trailing-slash claims. -/
def repSlash (k : Nat) : String :=
  String.mk (List.replicate k '/')

/-- The `generate_urls` handler of the main controller
(`bk_integration_settings.js`): bail out when `enable_integration` is
falsy, otherwise compute `base = (erp_base_url || origin || "")` with
trailing slashes stripped and set the five derived URL fields. -/
def generate_urls (origin : String) (d : Doc) : Doc :=
  if !truthy d.enable_integration then d
  else
    let base := stripTrailingSlashes (jsOrStr (jsOrStr d.erp_base_url origin) "")
    { d with
      auth_url := base ++ "/api/method/bk_integration.api.authenticate"
      validation_url := base ++ "/api/method/bk_integration.api.validate_customer"
      payment_notification_url := base ++ "/api/method/bk_integration.api.payment_notification"
      payment_callback_url := base ++ "/api/method/bk_integration.api.payment_callback"
      payment_reversal_url := base ++ "/api/method/bk_integration.api.payment_reversal" }

/-- The `generate_urls` handler of the stripped-down variant
(`src/unnamed/part_000`): it gates on `cint(enable_integration || 0)`
being nonzero and then runs the same derivation. -/
def generate_urls_variant (origin : String) (d : Doc) : Doc :=
  let enabled := cint (jsOrFlag d.enable_integration (.jint 0))
  if enabled = 0 then d
  else
    let base := stripTrailingSlashes (jsOrStr (jsOrStr d.erp_base_url origin) "")
    { d with
      auth_url := base ++ "/api/method/bk_integration.api.authenticate"
      validation_url := base ++ "/api/method/bk_integration.api.validate_customer"
      payment_notification_url := base ++ "/api/method/bk_integration.api.payment_notification"
      payment_callback_url := base ++ "/api/method/bk_integration.api.payment_callback"
      payment_reversal_url := base ++ "/api/method/bk_integration.api.payment_reversal" }

/-- The five derived URL fields of a record, in source order.  Claims about
"all five derived fields" are stated as equalities of this list. -/
def derivedUrls (d : Doc) : List String :=
  [d.auth_url, d.validation_url, d.payment_notification_url,
   d.payment_callback_url, d.payment_reversal_url]

/-- ASCII model of JavaScript's `String.prototype.toUpperCase`, applied
character by character (the status strings involved are ASCII). -/
def toUpperStr (s : String) : String :=
  String.mk (s.data.map Char.toUpper)

/-- Modelled from the spec: the host framework's `frappe.utils.escape_html`
is not part of this repository; the spec requires user-supplied text to be
HTML-escaped before insertion to prevent markup injection.  One character
of HTML-escaped output: the four markup-significant ASCII characters are
replaced by their entities, everything else passes through. -/
def escapeChar (c : Char) : String :=
  if c = '&' then "&amp;"
  else if c = '<' then "&lt;"
  else if c = '>' then "&gt;"
  else if c = '"' then "&quot;"
  else String.mk [c]

/-- HTML-escape a list of characters (see `escapeChar`). -/
def escapeList : List Char → List Char
  | [] => []
  | c :: cs => (escapeChar c).data ++ escapeList cs

/-- HTML-escape a string (see `escapeChar`). -/
def escapeHtml (s : String) : String :=
  String.mk (escapeList s.data)

/-- The green bold label the source interpolates for a SUCCESS status. -/
def successLabel : String :=
  "<span style=\"color:#178a2f;font-weight:600;\">SUCCESS</span>"

/-- The red bold label the source interpolates for every other status. -/
def failedLabel : String :=
  "<span style=\"color:#c0392b;font-weight:600;\">FAILED</span>"

/-- A transient alert shown by `frappe.show_alert`. -/
structure Alert where
  message : String
  indicator : String
deriving DecidableEq, Repr

/-- A persistent intro banner set by `frm.set_intro`. -/
structure Intro where
  html : String
  color : String
deriving DecidableEq, Repr

/-- The UI effects of one `render_test_status` call: at most one alert and
at most one intro banner; `none` means the corresponding host call was not
made (a prior banner stays untouched). -/
structure RenderEffects where
  alert : Option Alert
  intro : Option Intro
deriving DecidableEq, Repr

/-- The `render_test_status` handler: uppercase `last_test_status`; if it
is empty do nothing; otherwise fire a green alert on `"SUCCESS"`, a red
alert on `"FAILED"`, no alert on anything else, and always set the intro
banner with the green label for `"SUCCESS"` and the red label otherwise,
interpolating the escaped message and escaped timestamp. -/
def render_test_status (d : Doc) : RenderEffects :=
  let s := toUpperStr (jsOrStr d.last_test_status "")
  let msg := jsOrStr d.last_test_message ""
  let tested := jsOrStr d.last_test_on ""
  if s = "" then { alert := none, intro := none }
  else
    let alert : Option Alert :=
      if s = "SUCCESS" then some { message := "BK Connection: SUCCESS", indicator := "green" }
      else if s = "FAILED" then some { message := "BK Connection: FAILED", indicator := "red" }
      else none
    let label := if s = "SUCCESS" then successLabel else failedLabel
    { alert := alert
      intro := some
        { html := "<div>BK Connection Test: " ++ label ++ "<br>" ++ escapeHtml msg ++
            "<br><small>Last tested: " ++ escapeHtml tested ++ "</small></div>"
          color := if s = "SUCCESS" then "green" else "red" } }

/-- A sample record used to instantiate witnesses and counterexamples. -/
def sampleDoc : Doc :=
  { enable_integration := .jbool true
    erp_base_url := "https://erp.example.com"
    auth_url := "old-auth"
    validation_url := "old-validation"
    payment_notification_url := "old-notification"
    payment_callback_url := "old-callback"
    payment_reversal_url := "old-reversal"
    last_test_status := ""
    last_test_message := ""
    last_test_on := "" }

/-- A record with the integration disabled, for the frame witnesses. -/
def disabledDoc : Doc :=
  { sampleDoc with enable_integration := .jbool false }

/-- A record with an empty base URL, for the origin-fallback witness. -/
def emptyBaseDoc : Doc :=
  { sampleDoc with erp_base_url := "" }

/-- A record with a status outside the two literals and markup in its
message, for the status-rendering witnesses. -/
def errorDoc : Doc :=
  { sampleDoc with
    last_test_status := "ERROR"
    last_test_message := "<script>x</script>"
    last_test_on := "2024-01-01 10:00:00" }

/-- Helper: dropping slashes skips an initial run of slashes. -/
theorem dropWhile_replicate_slash (k : Nat) (l : List Char) :
    List.dropWhile (fun c => c == '/') (List.replicate k '/' ++ l) =
      List.dropWhile (fun c => c == '/') l := by
  induction k with
  | zero => rfl
  | succ n ih => simp [List.replicate_succ, List.dropWhile, ih]

/-- Helper: appending trailing slashes does not change the stripped string. -/
theorem strip_append_slashes (s : String) (k : Nat) :
    stripTrailingSlashes (s ++ repSlash k) = stripTrailingSlashes s := by
  unfold stripTrailingSlashes repSlash
  rw [String.data_append]
  simp [List.reverse_append, List.reverse_replicate, dropWhile_replicate_slash]

/-- Helper: a nonempty string stays nonempty after appending. -/
theorem append_ne_empty_left (s t : String) (h : s ≠ "") : s ++ t ≠ "" := by
  intro hc
  apply h
  have hd := congrArg String.data hc
  rw [String.data_append] at hd
  have hs : s.data = [] := (List.append_eq_nil.mp hd).1
  apply String.ext
  rw [hs]

/-- Helper: JavaScript defaulting with an empty right operand is the identity. -/
theorem jsOrStr_empty_right (s : String) : jsOrStr s "" = s := by
  unfold jsOrStr
  by_cases h : s = "" <;> simp [h]

/-- Helper: the uppercase image of a nonempty string is nonempty. -/
theorem toUpperStr_ne_empty (s : String) (h : s ≠ "") : toUpperStr s ≠ "" := by
  intro hc
  apply h
  have hd := congrArg String.data hc
  have hm : s.data.map Char.toUpper = [] := hd
  have hs : s.data = [] := List.map_eq_nil_iff.mp hm
  apply String.ext
  rw [hs]

/-- Helper: one escaped character contains no raw markup delimiter. -/
theorem escapeChar_no_markup (c x : Char) (hx : x ∈ (escapeChar c).data) :
    x ≠ '<' ∧ x ≠ '>' := by
  by_cases h1 : c = '&'
  · rw [escapeChar, if_pos h1] at hx
    exact (by decide : ∀ y ∈ "&amp;".data, y ≠ '<' ∧ y ≠ '>') x hx
  by_cases h2 : c = '<'
  · rw [escapeChar, if_neg h1, if_pos h2] at hx
    exact (by decide : ∀ y ∈ "&lt;".data, y ≠ '<' ∧ y ≠ '>') x hx
  by_cases h3 : c = '>'
  · rw [escapeChar, if_neg h1, if_neg h2, if_pos h3] at hx
    exact (by decide : ∀ y ∈ "&gt;".data, y ≠ '<' ∧ y ≠ '>') x hx
  by_cases h4 : c = '"'
  · rw [escapeChar, if_neg h1, if_neg h2, if_neg h3, if_pos h4] at hx
    exact (by decide : ∀ y ∈ "&quot;".data, y ≠ '<' ∧ y ≠ '>') x hx
  · rw [escapeChar, if_neg h1, if_neg h2, if_neg h3, if_neg h4] at hx
    have hxc : x = c := by simpa using hx
    subst hxc
    exact ⟨h2, h3⟩

/-- Helper: an escaped character list contains no raw markup delimiter. -/
theorem escapeList_no_markup (l : List Char) (x : Char) (hx : x ∈ escapeList l) :
    x ≠ '<' ∧ x ≠ '>' := by
  induction l with
  | nil => simp [escapeList] at hx
  | cons c cs ih =>
    rw [escapeList] at hx
    rcases List.mem_append.mp hx with h | h
    · exact escapeChar_no_markup c x h
    · exact ih h

/-- Helper: an escaped string contains no raw markup delimiter. -/
theorem escapeHtml_no_markup (s : String) (x : Char) (hx : x ∈ (escapeHtml s).data) :
    x ≠ '<' ∧ x ≠ '>' :=
  escapeList_no_markup s.data x hx

/-- Claim C1: with the integration enabled and a non-empty base URL, each of
the five derived fields equals the base URL with trailing slashes stripped,
followed by the fixed `/api/method/bk_integration.api.` path and the fixed
suffix for that field. -/
theorem generate_urls_derives_fields (origin : String) (d : Doc)
    (h1 : truthy d.enable_integration = true) (h2 : d.erp_base_url ≠ "") :
    derivedUrls (generate_urls origin d) =
      [stripTrailingSlashes d.erp_base_url ++ "/api/method/bk_integration.api." ++ "authenticate",
       stripTrailingSlashes d.erp_base_url ++ "/api/method/bk_integration.api." ++ "validate_customer",
       stripTrailingSlashes d.erp_base_url ++ "/api/method/bk_integration.api." ++ "payment_notification",
       stripTrailingSlashes d.erp_base_url ++ "/api/method/bk_integration.api." ++ "payment_callback",
       stripTrailingSlashes d.erp_base_url ++ "/api/method/bk_integration.api." ++ "payment_reversal"] := by
  have hinner : jsOrStr d.erp_base_url origin = d.erp_base_url := by
    unfold jsOrStr
    rw [if_neg h2]
  have hb : jsOrStr (jsOrStr d.erp_base_url origin) "" = d.erp_base_url := by
    rw [hinner, jsOrStr_empty_right]
  simp [generate_urls, derivedUrls, h1, hb]
  refine ⟨?_, ?_, ?_, ?_, ?_⟩ <;> rw [String.append_assoc] <;> rfl

/-- Witness for C1 at a concrete record and origin. -/
theorem generate_urls_derives_fields_witness :
    truthy sampleDoc.enable_integration = true ∧ sampleDoc.erp_base_url ≠ "" ∧
    derivedUrls (generate_urls "https://x.org" sampleDoc) =
      [stripTrailingSlashes sampleDoc.erp_base_url ++ "/api/method/bk_integration.api." ++ "authenticate",
       stripTrailingSlashes sampleDoc.erp_base_url ++ "/api/method/bk_integration.api." ++ "validate_customer",
       stripTrailingSlashes sampleDoc.erp_base_url ++ "/api/method/bk_integration.api." ++ "payment_notification",
       stripTrailingSlashes sampleDoc.erp_base_url ++ "/api/method/bk_integration.api." ++ "payment_callback",
       stripTrailingSlashes sampleDoc.erp_base_url ++ "/api/method/bk_integration.api." ++ "payment_reversal"] :=
  ⟨rfl, by decide, generate_urls_derives_fields "https://x.org" sampleDoc rfl (by decide)⟩

/-- Claim C2: with the integration disabled, `generate_urls` leaves the
whole record unchanged. -/
theorem generate_urls_noop_when_disabled (origin : String) (d : Doc)
    (h : truthy d.enable_integration = false) :
    generate_urls origin d = d := by
  simp [generate_urls, h]

/-- Witness for C2 at a concrete disabled record. -/
theorem generate_urls_noop_when_disabled_witness :
    truthy disabledDoc.enable_integration = false ∧
    generate_urls "https://x.org" disabledDoc = disabledDoc :=
  ⟨rfl, generate_urls_noop_when_disabled "https://x.org" disabledDoc rfl⟩

/-- Counterexample for C3 as stated: with an empty base string, appending
trailing slashes changes the derived URLs, because the empty base falls
back to the ambient origin while the all-slashes base does not. -/
theorem trailing_slash_counterexample :
    derivedUrls (generate_urls "https://app.local"
        { sampleDoc with erp_base_url := "" ++ repSlash 3 }) ≠
      derivedUrls (generate_urls "https://app.local"
        { sampleDoc with erp_base_url := "" }) := by
  decide

/-- Claim C3 (amended: for every NON-empty base string): with the
integration enabled, extending a non-empty base by any positive number of
trailing slashes yields identical values in all five derived URL fields. -/
theorem generate_urls_trailing_slash_invariant (origin s : String) (k : Nat) (d : Doc)
    (h1 : truthy d.enable_integration = true) (h2 : s ≠ "") (_h3 : 0 < k) :
    derivedUrls (generate_urls origin { d with erp_base_url := s ++ repSlash k }) =
      derivedUrls (generate_urls origin { d with erp_base_url := s }) := by
  have hsk : s ++ repSlash k ≠ "" := append_ne_empty_left s (repSlash k) h2
  have hb1 : jsOrStr (jsOrStr (s ++ repSlash k) origin) "" = s ++ repSlash k := by
    unfold jsOrStr
    rw [if_neg hsk, if_neg hsk]
  have hb2 : jsOrStr (jsOrStr s origin) "" = s := by
    unfold jsOrStr
    rw [if_neg h2, if_neg h2]
  simp [generate_urls, derivedUrls, h1, hb1, hb2, strip_append_slashes]

/-- Witness for C3 at the spec's example base and three trailing slashes. -/
theorem generate_urls_trailing_slash_invariant_witness :
    truthy sampleDoc.enable_integration = true ∧ "https://x.com" ≠ "" ∧ 0 < 3 ∧
    derivedUrls (generate_urls "https://y.org"
        { sampleDoc with erp_base_url := "https://x.com" ++ repSlash 3 }) =
      derivedUrls (generate_urls "https://y.org"
        { sampleDoc with erp_base_url := "https://x.com" }) :=
  ⟨rfl, by decide, by decide,
    generate_urls_trailing_slash_invariant "https://y.org" "https://x.com" 3 sampleDoc
      rfl (by decide) (by decide)⟩

/-- Claim C4: `generate_urls` is idempotent (a second run with unchanged
inputs reproduces the record exactly), and on enabled records the derived
fields are a function of the gate flag, the base URL, and the origin
alone. -/
theorem generate_urls_idempotent_pure :
    (∀ (origin : String) (d : Doc),
      generate_urls origin (generate_urls origin d) = generate_urls origin d) ∧
    (∀ (origin : String) (d1 d2 : Doc),
      d1.enable_integration = d2.enable_integration →
      d1.erp_base_url = d2.erp_base_url →
      truthy d1.enable_integration = true →
      derivedUrls (generate_urls origin d1) = derivedUrls (generate_urls origin d2)) := by
  constructor
  · intro origin d
    by_cases h : truthy d.enable_integration
    · cases d
      simp [generate_urls, h]
    · simp only [Bool.not_eq_true] at h
      have hno : generate_urls origin d = d := by simp [generate_urls, h]
      rw [hno, hno]
  · intro origin d1 d2 he herp h1
    have h2 : truthy d2.enable_integration = true := by
      rw [← he]
      exact h1
    simp [generate_urls, derivedUrls, h1, h2, herp]

/-- Witness for C4, instantiating both conjuncts at concrete records. -/
theorem generate_urls_idempotent_pure_witness :
    (generate_urls "https://x.org" (generate_urls "https://x.org" sampleDoc) =
      generate_urls "https://x.org" sampleDoc) ∧
    (derivedUrls (generate_urls "https://x.org" sampleDoc) =
      derivedUrls (generate_urls "https://x.org"
        { sampleDoc with last_test_status := "FAILED" })) :=
  ⟨generate_urls_idempotent_pure.1 "https://x.org" sampleDoc,
    generate_urls_idempotent_pure.2 "https://x.org" sampleDoc
      { sampleDoc with last_test_status := "FAILED" } rfl rfl rfl⟩

/-- Claim C5: with the integration enabled and an empty base URL,
`generate_urls` falls back to the ambient origin (itself defaulted to the
empty string and stripped of trailing slashes) as the base of all five
derived URL fields. -/
theorem generate_urls_origin_fallback (origin : String) (d : Doc)
    (h1 : truthy d.enable_integration = true) (h2 : d.erp_base_url = "") :
    derivedUrls (generate_urls origin d) =
      [stripTrailingSlashes (jsOrStr origin "") ++ "/api/method/bk_integration.api." ++ "authenticate",
       stripTrailingSlashes (jsOrStr origin "") ++ "/api/method/bk_integration.api." ++ "validate_customer",
       stripTrailingSlashes (jsOrStr origin "") ++ "/api/method/bk_integration.api." ++ "payment_notification",
       stripTrailingSlashes (jsOrStr origin "") ++ "/api/method/bk_integration.api." ++ "payment_callback",
       stripTrailingSlashes (jsOrStr origin "") ++ "/api/method/bk_integration.api." ++ "payment_reversal"] := by
  have hinner : jsOrStr d.erp_base_url origin = origin := by
    unfold jsOrStr
    rw [if_pos h2]
  simp [generate_urls, derivedUrls, h1, hinner]
  refine ⟨?_, ?_, ?_, ?_, ?_⟩ <;> rw [String.append_assoc] <;> rfl

/-- Witness for C5 at the spec's example origin, evaluating the derived
fields to their literal values. -/
theorem generate_urls_origin_fallback_witness :
    truthy emptyBaseDoc.enable_integration = true ∧ emptyBaseDoc.erp_base_url = "" ∧
    derivedUrls (generate_urls "https://app.local" emptyBaseDoc) =
      ["https://app.local/api/method/bk_integration.api.authenticate",
       "https://app.local/api/method/bk_integration.api.validate_customer",
       "https://app.local/api/method/bk_integration.api.payment_notification",
       "https://app.local/api/method/bk_integration.api.payment_callback",
       "https://app.local/api/method/bk_integration.api.payment_reversal"] :=
  ⟨rfl, rfl,
    (generate_urls_origin_fallback "https://app.local" emptyBaseDoc rfl rfl).trans
      (by decide)⟩

/-- Claim C6: whenever the banner is written, the message and the timestamp
are inserted only through `escapeHtml`, and escaped text contains neither a
raw opening nor a raw closing markup delimiter. -/
theorem render_escapes_user_text (d : Doc) (h : d.last_test_status ≠ "") :
    (render_test_status d).intro = some
      { html := "<div>BK Connection Test: " ++
          (if toUpperStr d.last_test_status = "SUCCESS" then successLabel else failedLabel) ++
          "<br>" ++ escapeHtml d.last_test_message ++ "<br><small>Last tested: " ++
          escapeHtml d.last_test_on ++ "</small></div>"
        color := if toUpperStr d.last_test_status = "SUCCESS" then "green" else "red" } ∧
    (∀ x, x ∈ (escapeHtml d.last_test_message).data → x ≠ '<' ∧ x ≠ '>') ∧
    (∀ x, x ∈ (escapeHtml d.last_test_on).data → x ≠ '<' ∧ x ≠ '>') := by
  have hs : toUpperStr d.last_test_status ≠ "" := toUpperStr_ne_empty _ h
  refine ⟨?_, fun x hx => escapeHtml_no_markup _ x hx,
    fun x hx => escapeHtml_no_markup _ x hx⟩
  simp [render_test_status, jsOrStr_empty_right, hs]

set_option maxRecDepth 10000 in
/-- Witness for C6 at a record whose message is the spec's script-injection
example; the final conjunct evaluates the banner, showing the message only
in its escaped form. -/
theorem render_escapes_user_text_witness :
    errorDoc.last_test_status ≠ "" ∧
    ((render_test_status errorDoc).intro = some
      { html := "<div>BK Connection Test: " ++
          (if toUpperStr errorDoc.last_test_status = "SUCCESS" then successLabel else failedLabel) ++
          "<br>" ++ escapeHtml errorDoc.last_test_message ++ "<br><small>Last tested: " ++
          escapeHtml errorDoc.last_test_on ++ "</small></div>"
        color := if toUpperStr errorDoc.last_test_status = "SUCCESS" then "green" else "red" } ∧
    (∀ x, x ∈ (escapeHtml errorDoc.last_test_message).data → x ≠ '<' ∧ x ≠ '>') ∧
    (∀ x, x ∈ (escapeHtml errorDoc.last_test_on).data → x ≠ '<' ∧ x ≠ '>')) ∧
    (render_test_status errorDoc).intro = some
      { html := "<div>BK Connection Test: <span style=\"color:#c0392b;font-weight:600;\">FAILED</span><br>&lt;script&gt;x&lt;/script&gt;<br><small>Last tested: 2024-01-01 10:00:00</small></div>"
        color := "red" } :=
  ⟨by decide, render_escapes_user_text errorDoc (by decide), by decide⟩

/-- Claim C7: a non-empty status that uppercases to neither SUCCESS nor
FAILED fires no transient alert, while the banner is still written, with
the red FAILED label and the red banner color. -/
theorem render_unknown_status (d : Doc)
    (h1 : d.last_test_status ≠ "")
    (h2 : toUpperStr d.last_test_status ≠ "SUCCESS")
    (h3 : toUpperStr d.last_test_status ≠ "FAILED") :
    (render_test_status d).alert = none ∧
    (render_test_status d).intro = some
      { html := "<div>BK Connection Test: " ++ failedLabel ++ "<br>" ++
          escapeHtml d.last_test_message ++ "<br><small>Last tested: " ++
          escapeHtml d.last_test_on ++ "</small></div>"
        color := "red" } := by
  have hs : toUpperStr d.last_test_status ≠ "" := toUpperStr_ne_empty _ h1
  constructor <;> simp [render_test_status, jsOrStr_empty_right, hs, h2, h3]

/-- Witness for C7 at the status ERROR. -/
theorem render_unknown_status_witness :
    errorDoc.last_test_status ≠ "" ∧
    toUpperStr errorDoc.last_test_status ≠ "SUCCESS" ∧
    toUpperStr errorDoc.last_test_status ≠ "FAILED" ∧
    ((render_test_status errorDoc).alert = none ∧
    (render_test_status errorDoc).intro = some
      { html := "<div>BK Connection Test: " ++ failedLabel ++ "<br>" ++
          escapeHtml errorDoc.last_test_message ++ "<br><small>Last tested: " ++
          escapeHtml errorDoc.last_test_on ++ "</small></div>"
        color := "red" }) :=
  ⟨by decide, by decide, by decide,
    render_unknown_status errorDoc (by decide) (by decide) (by decide)⟩

/-- Claim C8: a lowercase `success` status is treated exactly like
`SUCCESS`: the render effects coincide, the green success alert fires, and
the banner carries the green SUCCESS label and the green color. -/
theorem render_status_case_insensitive (d : Doc) :
    render_test_status { d with last_test_status := "success" } =
      render_test_status { d with last_test_status := "SUCCESS" } ∧
    (render_test_status { d with last_test_status := "success" }).alert =
      some { message := "BK Connection: SUCCESS", indicator := "green" } ∧
    (render_test_status { d with last_test_status := "success" }).intro =
      some
        { html := "<div>BK Connection Test: " ++ successLabel ++ "<br>" ++
            escapeHtml d.last_test_message ++ "<br><small>Last tested: " ++
            escapeHtml d.last_test_on ++ "</small></div>"
          color := "green" } := by
  have hup1 : toUpperStr "success" = "SUCCESS" := by decide
  have hup2 : toUpperStr "SUCCESS" = "SUCCESS" := by decide
  have hne : ("SUCCESS" : String) ≠ "" := by decide
  refine ⟨?_, ?_, ?_⟩ <;>
    simp [render_test_status, jsOrStr_empty_right, hup1, hup2, hne]

/-- Claim C9: with an empty (or unset) status, `render_test_status` fires
no alert and does not touch the intro banner. -/
theorem render_noop_when_no_status (d : Doc) (h : d.last_test_status = "") :
    render_test_status d = { alert := none, intro := none } := by
  have h0 : toUpperStr "" = "" := rfl
  simp [render_test_status, jsOrStr_empty_right, h, h0]

/-- Witness for C9 at a record with no recorded status. -/
theorem render_noop_when_no_status_witness :
    sampleDoc.last_test_status = "" ∧
    render_test_status sampleDoc = { alert := none, intro := none } :=
  ⟨rfl, render_noop_when_no_status sampleDoc rfl⟩

/-- Claim C10: on records whose gate flag is a boolean or the integer 0 or
1, the `generate_urls` of the main controller and the `generate_urls` of
the stripped-down variant compute the same record, so they derive the same
five URLs and are no-ops in exactly the same cases. -/
theorem generate_urls_variants_agree (origin : String) (d : Doc)
    (h : (∃ b, d.enable_integration = .jbool b) ∨
      d.enable_integration = .jint 0 ∨ d.enable_integration = .jint 1) :
    generate_urls_variant origin d = generate_urls origin d := by
  rcases h with ⟨b, hb⟩ | h0 | h1
  · cases b <;>
      simp [generate_urls, generate_urls_variant, hb, truthy, cint, jsOrFlag]
  · simp [generate_urls, generate_urls_variant, h0, truthy, cint, jsOrFlag]
  · simp [generate_urls, generate_urls_variant, h1, truthy, cint, jsOrFlag]

/-- Witness for C10 at a concrete boolean-flagged record. -/
theorem generate_urls_variants_agree_witness :
    ((∃ b, sampleDoc.enable_integration = JsFlag.jbool b) ∨
      sampleDoc.enable_integration = JsFlag.jint 0 ∨
      sampleDoc.enable_integration = JsFlag.jint 1) ∧
    generate_urls_variant "https://x.org" sampleDoc =
      generate_urls "https://x.org" sampleDoc :=
  ⟨Or.inl ⟨true, rfl⟩,
    generate_urls_variants_agree "https://x.org" sampleDoc (Or.inl ⟨true, rfl⟩)⟩
